import Mathlib

/-!
Verification of the Xtrieve client wire protocol, the DOS TSR serializer and
the COM-to-TCP bridge, as shallow embeddings of the repository sources.

Bytes are modelled as natural numbers below 256 inside lists; encoding
functions mask with explicit mod operations exactly where the source code
performs an integer narrowing.
-/

/-- Encoding of a value as two little-endian bytes, as written by
Go binary.LittleEndian.PutUint16, the bridge send helpers and pack v in PHP. -/
def u16le (v : Nat) : List Nat := [v % 256, v / 256 % 256]

/-- Encoding of a value as four little-endian bytes. -/
def u32le (v : Nat) : List Nat :=
  [v % 256, v / 256 % 256, v / 65536 % 256, v / 16777216 % 256]

/-- Decoding of two little-endian bytes at the head of a list. -/
def le16 (l : List Nat) : Nat := l.getD 0 0 + 256 * l.getD 1 0

/-- Decoding of four little-endian bytes at the head of a list. -/
def le32 (l : List Nat) : Nat :=
  l.getD 0 0 + 256 * l.getD 1 0 + 65536 * l.getD 2 0 + 16777216 * l.getD 3 0

/-- Conversion of a signed 16-bit value to its unsigned representation,
the effect of the Go conversion uint16(int16) and of writeInt16LE. -/
def intToU16 (i : Int) : Nat := (i % 65536).toNat

/-- Model of the Go built-in copy into a slice of a buffer: writes src at
offset off, clipped to the remaining capacity of buf, returning the new
buffer contents. -/
def copyAt (buf : List Nat) (off : Nat) (src : List Nat) : List Nat :=
  let n := min src.length (buf.length - off)
  buf.take off ++ src.take n ++ buf.drop (off + n)

/-- Model of reading exactly n bytes from a stream (io.ReadFull, recv_all,
serial_read_bytes): fails when fewer than n bytes remain. -/
def readExact (n : Nat) (s : List Nat) : Option (List Nat × List Nat) :=
  if n ≤ s.length then some (s.take n, s.drop n) else none

/-- Model of reading a little-endian u16 from a stream. -/
def readU16 (s : List Nat) : Option (Nat × List Nat) :=
  match s with
  | b0 :: b1 :: rest => some (b0 + 256 * b1, rest)
  | _ => none

/-- Model of reading a little-endian u32 from a stream. -/
def readU32 (s : List Nat) : Option (Nat × List Nat) :=
  match s with
  | b0 :: b1 :: b2 :: b3 :: rest =>
      some (b0 + 256 * b1 + 65536 * b2 + 16777216 * b3, rest)
  | _ => none

/-- Zero-pad or truncate a byte list to exactly 128 bytes, the handling of
the caller position block by every client serializer. -/
def pad128 (l : List Nat) : List Nat := l.take 128 ++ List.replicate (128 - l.length) 0

/- ===== Client SDK data model (src/sdks/go/xtrieve.go) ===== -/

/-- Request structure of the Go SDK. -/
structure Request where
  operation : Nat
  positionBlock : List Nat
  dataBuffer : List Nat
  keyBuffer : List Nat
  keyNumber : Int
  filePath : List Nat
  lockBias : Nat
deriving DecidableEq

/-- Response structure of the Go SDK. -/
structure Response where
  statusCode : Nat
  positionBlock : List Nat
  dataBuffer : List Nat
  keyBuffer : List Nat
deriving DecidableEq

/-- Key specification of the Go SDK for file creation. -/
structure KeySpec where
  position : Nat
  length : Nat
  flags : Nat
  type : Nat
  nullValue : Nat
deriving DecidableEq

/-- File specification of the Go SDK for file creation. -/
structure FileSpec where
  recordLength : Nat
  pageSize : Nat
  keys : List KeySpec
deriving DecidableEq

/-- Embedding of buildRequest from src/sdks/go/xtrieve.go lines 364 to 413:
a zeroed buffer of the computed total size is filled by successive writes at
a running offset. -/
def buildRequest (req : Request) : List Nat :=
  let posBlock := copyAt (List.replicate 128 0) 0 req.positionBlock
  let dl := req.dataBuffer.length
  let kl := req.keyBuffer.length
  let pl := req.filePath.length
  let total := 2 + 128 + 4 + dl + 2 + kl + 2 + 2 + pl + 2
  let b0 := List.replicate total 0
  let b1 := copyAt b0 0 (u16le req.operation)
  let b2 := copyAt b1 2 posBlock
  let b3 := copyAt b2 130 (u32le dl)
  let b4 := copyAt b3 134 req.dataBuffer
  let b5 := copyAt b4 (134 + dl) (u16le kl)
  let b6 := copyAt b5 (136 + dl) req.keyBuffer
  let b7 := copyAt b6 (136 + dl + kl) (u16le (intToU16 req.keyNumber))
  let b8 := copyAt b7 (138 + dl + kl) (u16le pl)
  let b9 := copyAt b8 (140 + dl + kl) req.filePath
  copyAt b9 (140 + dl + kl + pl) (u16le req.lockBias)

/-- Embedding of readResponse from src/sdks/go/xtrieve.go lines 415 to 454:
reads a 134-byte header, then the data buffer, a 2-byte key length and the
key buffer; returns the response and the unconsumed remainder of the stream. -/
def readResponse (s : List Nat) : Option (Response × List Nat) :=
  match readExact 134 s with
  | none => none
  | some (header, s1) =>
    match readExact (le32 (header.drop 130)) s1 with
    | none => none
    | some (data, s2) =>
      match readU16 s2 with
      | none => none
      | some (klen, s3) =>
        match readExact klen s3 with
        | none => none
        | some (key, s4) =>
          some ({ statusCode := le16 header,
                  positionBlock := (header.drop 2).take 128,
                  dataBuffer := data,
                  keyBuffer := key }, s4)

/-- Embedding of Execute from src/sdks/go/xtrieve.go lines 166 to 184. The
transport is modelled by a connected flag, a send-success flag and the byte
stream available to be read back; the serialized request is sent and the
response is read, with errors only for transport conditions. -/
def Execute (connected sendOk : Bool) (req : Request) (stream : List Nat) :
    Except String Response :=
  if connected = false then Except.error "not connected"
  else
    let _packet := buildRequest req
    if sendOk = false then Except.error "send failed"
    else
      match readResponse stream with
      | some (r, _) => Except.ok r
      | none => Except.error "read failed"

/-- Embedding of one key-spec record write of BuildFileSpec: four writes at
offsets off, off plus 2, off plus 4, and the two single bytes at off plus 6
and off plus 7. -/
def writeKey (buf : List Nat) (off : Nat) (k : KeySpec) : List Nat :=
  let b1 := copyAt buf off (u16le k.position)
  let b2 := copyAt b1 (off + 2) (u16le k.length)
  let b3 := copyAt b2 (off + 4) (u16le k.flags)
  let b4 := copyAt b3 (off + 6) [k.type % 256]
  copyAt b4 (off + 7) [k.nullValue % 256]

/-- Embedding of the key loop of BuildFileSpec, writing each record at a
stride of 16 bytes. -/
def writeKeys (buf : List Nat) (off : Nat) (keys : List KeySpec) : List Nat :=
  match keys with
  | [] => buf
  | k :: ks => writeKeys (writeKey buf off k) (off + 16) ks

/-- Embedding of BuildFileSpec from src/sdks/go/xtrieve.go lines 187 to 210. -/
def buildFileSpec (spec : FileSpec) : List Nat :=
  let total := 10 + spec.keys.length * 16
  let b0 := List.replicate total 0
  let b1 := copyAt b0 0 (u16le spec.recordLength)
  let b2 := copyAt b1 2 (u16le spec.pageSize)
  let b3 := copyAt b2 4 (u16le spec.keys.length)
  writeKeys b3 10 spec.keys

/- ===== Spec-side wire layouts (spec section 6), for refinement claims ===== -/

/-- Spec request layout, written from the words of spec section 6: operation,
128-byte position block, data length and data, key length and key, key
number as i16, path length and path, lock bias. -/
def requestWireLayout (req : Request) : List Nat :=
  u16le req.operation ++ pad128 req.positionBlock ++
  u32le req.dataBuffer.length ++ req.dataBuffer ++
  u16le req.keyBuffer.length ++ req.keyBuffer ++
  u16le (intToU16 req.keyNumber) ++
  u16le req.filePath.length ++ req.filePath ++
  u16le req.lockBias

/-- Spec response layout, written from the words of spec section 6: status
code, 128-byte position block, data length and data, key length and key. -/
def responseWire (status : Nat) (pos data key : List Nat) : List Nat :=
  u16le status ++ pos ++ u32le data.length ++ data ++ u16le key.length ++ key

/-- Spec file-creation layout, written from the words of spec section 6. -/
def keyRecordBytes (k : KeySpec) : List Nat :=
  u16le k.position ++ u16le k.length ++ u16le k.flags ++
  [k.type % 256] ++ [k.nullValue % 256] ++ List.replicate 8 0

/-- Spec file-creation buffer layout for opcode 14. -/
def fileSpecWireLayout (spec : FileSpec) : List Nat :=
  u16le spec.recordLength ++ u16le spec.pageSize ++ u16le spec.keys.length ++
  List.replicate 4 0 ++ (spec.keys.map keyRecordBytes).flatten

/- ===== Basic lemmas about the primitives ===== -/

theorem u16le_length (v : Nat) : (u16le v).length = 2 := rfl

theorem u32le_length (v : Nat) : (u32le v).length = 4 := rfl

theorem pad128_length (l : List Nat) : (pad128 l).length = 128 := by
  simp only [pad128, List.length_append, List.length_take, List.length_replicate]
  omega

/-- Writing src into the zero region right after a prefix yields the prefix,
then src, then the remaining zeros. -/
theorem copyAt_fill (p src : List Nat) (m off : Nat)
    (hoff : p.length = off) (h : src.length ≤ m) :
    copyAt (p ++ List.replicate m 0) off src =
      p ++ src ++ List.replicate (m - src.length) 0 := by
  subst hoff
  have hlen : (p ++ List.replicate m 0).length = p.length + m := by simp
  have hn : min src.length ((p ++ List.replicate m 0).length - p.length) = src.length := by
    simp [hlen]; omega
  simp only [copyAt, hn]
  rw [List.take_left, List.take_length]
  have hdrop : (p ++ List.replicate m 0).drop (p.length + src.length) =
      List.replicate (m - src.length) 0 := by
    rw [List.drop_append, List.drop_replicate]
  rw [hdrop, List.append_assoc]

/-- Copying into a fresh 128-byte zero buffer at offset zero pads or
truncates the source to exactly 128 bytes. -/
theorem copyAt_zero_pad (l : List Nat) :
    copyAt (List.replicate 128 0) 0 l = pad128 l := by
  simp only [copyAt, List.length_replicate, Nat.sub_zero, List.take_zero,
    List.nil_append, Nat.zero_add, List.drop_replicate, pad128]
  rcases le_or_lt l.length 128 with h | h
  · rw [min_eq_left h, List.take_length, List.take_of_length_le h]
  · rw [min_eq_right (le_of_lt h)]
    have : 128 - l.length = 0 := by omega
    simp [this]

theorem readExact_prefix (a b : List Nat) : readExact a.length (a ++ b) = some (a, b) := by
  simp [readExact, List.take_left, List.drop_left]

theorem readExact_prefix' (n : Nat) (a b : List Nat) (h : a.length = n) :
    readExact n (a ++ b) = some (a, b) := by
  subst h; exact readExact_prefix a b

theorem readU16_u16le (v : Nat) (rest : List Nat) (h : v < 65536) :
    readU16 (u16le v ++ rest) = some (v, rest) := by
  simp only [u16le, List.cons_append, List.nil_append, readU16]
  congr 1
  congr 1
  omega

theorem readU32_u32le (v : Nat) (rest : List Nat) (h : v < 4294967296) :
    readU32 (u32le v ++ rest) = some (v, rest) := by
  simp only [u32le, List.cons_append, List.nil_append, readU32]
  congr 1
  congr 1
  omega

/-- Variant of copyAt_fill with the remaining zero count given explicitly. -/
theorem copyAt_fill2 (p src : List Nat) (m off r : Nat)
    (hoff : p.length = off) (hr : src.length + r = m) :
    copyAt (p ++ List.replicate m 0) off src = (p ++ src) ++ List.replicate r 0 := by
  have h := copyAt_fill p src m off hoff (by omega)
  rw [h]
  have hmr : m - src.length = r := by omega
  rw [hmr]

/-- Writing into a fresh zero buffer at offset zero. -/
theorem copyAt_fill0 (src : List Nat) (m r : Nat) (hr : src.length + r = m) :
    copyAt (List.replicate m 0) 0 src = src ++ List.replicate r 0 := by
  have h := copyAt_fill2 [] src m 0 r rfl hr
  simpa using h

/-- The Go request builder produces exactly the spec section 6 request
layout: the sequence of offset writes into the zeroed buffer equals the
field concatenation. -/
theorem buildRequest_eq_layout (req : Request) :
    buildRequest req = requestWireLayout req := by
  simp only [buildRequest]
  rw [copyAt_zero_pad]
  rw [copyAt_fill0 (u16le req.operation)
        (2 + 128 + 4 + req.dataBuffer.length + 2 + req.keyBuffer.length + 2 + 2 +
          req.filePath.length + 2)
        (140 + req.dataBuffer.length + req.keyBuffer.length + req.filePath.length)
        (by rw [u16le_length]; try omega)]
  rw [copyAt_fill2 (u16le req.operation) (pad128 req.positionBlock)
        (140 + req.dataBuffer.length + req.keyBuffer.length + req.filePath.length) 2
        (12 + req.dataBuffer.length + req.keyBuffer.length + req.filePath.length)
        (u16le_length req.operation)
        (by rw [pad128_length]; omega)]
  rw [copyAt_fill2 (u16le req.operation ++ pad128 req.positionBlock)
        (u32le req.dataBuffer.length)
        (12 + req.dataBuffer.length + req.keyBuffer.length + req.filePath.length) 130
        (8 + req.dataBuffer.length + req.keyBuffer.length + req.filePath.length)
        (by simp only [List.length_append, u16le_length, pad128_length])
        (by rw [u32le_length]; omega)]
  rw [copyAt_fill2 ((u16le req.operation ++ pad128 req.positionBlock) ++
        u32le req.dataBuffer.length) req.dataBuffer
        (8 + req.dataBuffer.length + req.keyBuffer.length + req.filePath.length) 134
        (8 + req.keyBuffer.length + req.filePath.length)
        (by simp only [List.length_append, u16le_length, pad128_length, u32le_length]; try omega)
        (by omega)]
  rw [copyAt_fill2 (((u16le req.operation ++ pad128 req.positionBlock) ++
        u32le req.dataBuffer.length) ++ req.dataBuffer)
        (u16le req.keyBuffer.length)
        (8 + req.keyBuffer.length + req.filePath.length) (134 + req.dataBuffer.length)
        (6 + req.keyBuffer.length + req.filePath.length)
        (by simp only [List.length_append, u16le_length, pad128_length, u32le_length]; try omega)
        (by rw [u16le_length]; try omega)]
  rw [copyAt_fill2 ((((u16le req.operation ++ pad128 req.positionBlock) ++
        u32le req.dataBuffer.length) ++ req.dataBuffer) ++ u16le req.keyBuffer.length)
        req.keyBuffer
        (6 + req.keyBuffer.length + req.filePath.length) (136 + req.dataBuffer.length)
        (6 + req.filePath.length)
        (by simp only [List.length_append, u16le_length, pad128_length, u32le_length]; try omega)
        (by omega)]
  rw [copyAt_fill2 (((((u16le req.operation ++ pad128 req.positionBlock) ++
        u32le req.dataBuffer.length) ++ req.dataBuffer) ++ u16le req.keyBuffer.length) ++
        req.keyBuffer)
        (u16le (intToU16 req.keyNumber))
        (6 + req.filePath.length) (136 + req.dataBuffer.length + req.keyBuffer.length)
        (4 + req.filePath.length)
        (by simp only [List.length_append, u16le_length, pad128_length, u32le_length]; try omega)
        (by rw [u16le_length]; try omega)]
  rw [copyAt_fill2 ((((((u16le req.operation ++ pad128 req.positionBlock) ++
        u32le req.dataBuffer.length) ++ req.dataBuffer) ++ u16le req.keyBuffer.length) ++
        req.keyBuffer) ++ u16le (intToU16 req.keyNumber))
        (u16le req.filePath.length)
        (4 + req.filePath.length) (138 + req.dataBuffer.length + req.keyBuffer.length)
        (2 + req.filePath.length)
        (by simp only [List.length_append, u16le_length, pad128_length, u32le_length]; try omega)
        (by rw [u16le_length]; try omega)]
  rw [copyAt_fill2 (((((((u16le req.operation ++ pad128 req.positionBlock) ++
        u32le req.dataBuffer.length) ++ req.dataBuffer) ++ u16le req.keyBuffer.length) ++
        req.keyBuffer) ++ u16le (intToU16 req.keyNumber)) ++ u16le req.filePath.length)
        req.filePath
        (2 + req.filePath.length) (140 + req.dataBuffer.length + req.keyBuffer.length)
        2
        (by simp only [List.length_append, u16le_length, pad128_length, u32le_length]; try omega)
        (by omega)]
  rw [copyAt_fill2 ((((((((u16le req.operation ++ pad128 req.positionBlock) ++
        u32le req.dataBuffer.length) ++ req.dataBuffer) ++ u16le req.keyBuffer.length) ++
        req.keyBuffer) ++ u16le (intToU16 req.keyNumber)) ++ u16le req.filePath.length) ++
        req.filePath)
        (u16le req.lockBias)
        2 (140 + req.dataBuffer.length + req.keyBuffer.length + req.filePath.length)
        0
        (by simp only [List.length_append, u16le_length, pad128_length, u32le_length]; try omega)
        (by rw [u16le_length]; try omega)]
  simp [requestWireLayout, List.append_assoc]

/-- The length of the serialized request is 142 plus the three variable
buffer lengths. -/
theorem buildRequest_length (req : Request) :
    (buildRequest req).length =
      142 + req.dataBuffer.length + req.keyBuffer.length + req.filePath.length := by
  rw [buildRequest_eq_layout]
  simp only [requestWireLayout, List.length_append, u16le_length, u32le_length,
    pad128_length]
  omega

theorem keyRecordBytes_length (k : KeySpec) : (keyRecordBytes k).length = 16 := by
  simp only [keyRecordBytes, List.length_append, u16le_length, List.length_cons,
    List.length_nil, List.length_replicate]

/-- Writing one key record into the zero region right after a prefix. -/
theorem writeKey_fill (p : List Nat) (k : KeySpec) (m off r : Nat)
    (hoff : p.length = off) (hr : 16 + r = m) :
    writeKey (p ++ List.replicate m 0) off k =
      (p ++ keyRecordBytes k) ++ List.replicate r 0 := by
  simp only [writeKey]
  rw [copyAt_fill2 p (u16le k.position) m off (14 + r) hoff
        (by rw [u16le_length]; omega)]
  rw [copyAt_fill2 (p ++ u16le k.position) (u16le k.length) (14 + r) (off + 2) (12 + r)
        (by simp only [List.length_append, u16le_length]; omega)
        (by rw [u16le_length]; try omega)]
  rw [copyAt_fill2 ((p ++ u16le k.position) ++ u16le k.length) (u16le k.flags)
        (12 + r) (off + 4) (10 + r)
        (by simp only [List.length_append, u16le_length]; omega)
        (by rw [u16le_length]; try omega)]
  rw [copyAt_fill2 (((p ++ u16le k.position) ++ u16le k.length) ++ u16le k.flags)
        [k.type % 256] (10 + r) (off + 6) (9 + r)
        (by simp only [List.length_append, u16le_length]; omega)
        (by simp only [List.length_cons, List.length_nil]; omega)]
  rw [copyAt_fill2 ((((p ++ u16le k.position) ++ u16le k.length) ++ u16le k.flags) ++
        [k.type % 256]) [k.nullValue % 256] (9 + r) (off + 7) (8 + r)
        (by simp only [List.length_append, u16le_length, List.length_cons,
              List.length_nil]; omega)
        (by simp only [List.length_cons, List.length_nil]; omega)]
  have hsplit : (List.replicate (8 + r) 0 : List Nat) =
      List.replicate 8 0 ++ List.replicate r 0 := List.replicate_add 8 r 0
  rw [hsplit]
  simp [keyRecordBytes, List.append_assoc]

/-- Writing the whole key table into the zero region after a prefix. -/
theorem writeKeys_fill (ks : List KeySpec) (p : List Nat) (off : Nat)
    (hoff : p.length = off) :
    writeKeys (p ++ List.replicate (ks.length * 16) 0) off ks =
      p ++ (ks.map keyRecordBytes).flatten := by
  induction ks generalizing p off with
  | nil => simp [writeKeys]
  | cons k ks ih =>
    simp only [writeKeys]
    have hm : (k :: ks).length * 16 = 16 + ks.length * 16 := by
      simp [List.length_cons]; ring
    rw [hm]
    rw [writeKey_fill p k (16 + ks.length * 16) off (ks.length * 16) hoff rfl]
    rw [ih (p ++ keyRecordBytes k) (off + 16)
          (by simp only [List.length_append, keyRecordBytes_length, hoff])]
    simp [List.append_assoc]

/-- The Go file-spec builder produces exactly the spec section 6 creation
layout. -/
theorem buildFileSpec_eq_layout (spec : FileSpec) :
    buildFileSpec spec = fileSpecWireLayout spec := by
  simp only [buildFileSpec]
  rw [copyAt_fill0 (u16le spec.recordLength) (10 + spec.keys.length * 16)
        (8 + spec.keys.length * 16) (by rw [u16le_length]; omega)]
  rw [copyAt_fill2 (u16le spec.recordLength) (u16le spec.pageSize)
        (8 + spec.keys.length * 16) 2 (6 + spec.keys.length * 16)
        (u16le_length spec.recordLength)
        (by rw [u16le_length]; try omega)]
  rw [copyAt_fill2 (u16le spec.recordLength ++ u16le spec.pageSize)
        (u16le spec.keys.length)
        (6 + spec.keys.length * 16) 4 (4 + spec.keys.length * 16)
        (by simp only [List.length_append, u16le_length])
        (by rw [u16le_length]; try omega)]
  have hsplit : (List.replicate (4 + spec.keys.length * 16) 0 : List Nat) =
      List.replicate 4 0 ++ List.replicate (spec.keys.length * 16) 0 :=
    List.replicate_add 4 (spec.keys.length * 16) 0
  rw [hsplit, ← List.append_assoc]
  rw [writeKeys_fill spec.keys
        (((u16le spec.recordLength ++ u16le spec.pageSize) ++ u16le spec.keys.length) ++
          List.replicate 4 0) 10
        (by simp only [List.length_append, u16le_length, List.length_replicate])]
  simp [fileSpecWireLayout, List.append_assoc]

/-- The reader consumes exactly a serialized response and reconstructs its
fields, leaving the rest of the stream. -/
theorem readResponse_roundtrip (s : Nat) (pos d k rest : List Nat)
    (hs : s < 65536) (hpos : pos.length = 128)
    (hd : d.length < 4294967296) (hk : k.length < 65536) :
    readResponse (responseWire s pos d k ++ rest) =
      some ({ statusCode := s, positionBlock := pos,
              dataBuffer := d, keyBuffer := k }, rest) := by
  have hsplit : responseWire s pos d k ++ rest =
      ((u16le s ++ pos) ++ u32le d.length) ++ (d ++ (u16le k.length ++ (k ++ rest))) := by
    simp [responseWire, List.append_assoc]
  have hhdr : ((u16le s ++ pos) ++ u32le d.length).length = 134 := by
    simp only [List.length_append, u16le_length, u32le_length, hpos]
  have h1 : readExact 134 (((u16le s ++ pos) ++ u32le d.length) ++
      (d ++ (u16le k.length ++ (k ++ rest)))) =
      some ((u16le s ++ pos) ++ u32le d.length, d ++ (u16le k.length ++ (k ++ rest))) :=
    readExact_prefix' 134 _ _ hhdr
  have hdrop130 : (((u16le s ++ pos) ++ u32le d.length)).drop 130 = u32le d.length := by
    rw [List.drop_left' (by simp only [List.length_append, u16le_length, hpos])]
  have h2 : le32 ((((u16le s ++ pos) ++ u32le d.length)).drop 130) = d.length := by
    rw [hdrop130]
    simp only [le32, u32le, List.getD_cons_zero, List.getD_cons_succ]
    omega
  have h3 : readExact d.length (d ++ (u16le k.length ++ (k ++ rest))) =
      some (d, u16le k.length ++ (k ++ rest)) := readExact_prefix d _
  have h4 : readU16 (u16le k.length ++ (k ++ rest)) = some (k.length, k ++ rest) :=
    readU16_u16le k.length _ hk
  have h5 : readExact k.length (k ++ rest) = some (k, rest) := readExact_prefix k rest
  have h6 : le16 ((u16le s ++ pos) ++ u32le d.length) = s := by
    simp only [u16le, List.cons_append, List.nil_append, le16, List.getD_cons_zero,
      List.getD_cons_succ]
    omega
  have h7 : ((((u16le s ++ pos) ++ u32le d.length)).drop 2).take 128 = pos := by
    simp only [u16le, List.cons_append, List.nil_append, List.append_assoc]
    rw [List.drop_succ_cons, List.drop_succ_cons, List.drop_zero]
    rw [List.take_left' hpos]
  rw [hsplit]
  simp only [readResponse, h1, h2, h3, h4, h5, h6, h7]

/- ===== DOS TSR model (src/dos-client/BTRSERL.C) ===== -/

/-- Btrieve parameter block of the DOS TSR (BTR_PARMS). Buffers are optional
to model null far pointers; key_num is the signed char field. -/
structure BtrParms where
  data_buf : Option (List Nat)
  data_len : Nat
  pos_blk : Option (List Nat)
  operation : Nat
  key_buf : Option (List Nat)
  key_len : Nat
  key_num : Int
deriving DecidableEq

/-- Model of the byte-at-index read src ? src[i] : 0 performed by do_call. -/
def memByte (buf : Option (List Nat)) (i : Nat) : Nat :=
  match buf with
  | none => 0
  | some l => l.getD i 0

/-- The n bytes emitted for a buffer segment by the do_call loops. -/
def segBytes (buf : Option (List Nat)) (n : Nat) : List Nat :=
  (List.range n).map (memByte buf)

/-- Path extraction of do_call: for Open and Create with a non-null key
buffer, the bytes up to the first zero, capped at 79. -/
def doCallPath (p : BtrParms) : List Nat :=
  match p.key_buf with
  | none => []
  | some kb =>
    if p.operation = 0 ∨ p.operation = 14 then (kb.takeWhile (fun b => b != 0)).take 79
    else []

/-- Embedding of the request serialization of do_call from
src/dos-client/BTRSERL.C lines 100 to 149: sync marker, operation, 128
position-block bytes, data length and data bytes, the constant key length
80 and 80 key-buffer bytes, the masked key number, path length and path,
and a zero lock bias. -/
def doCallRequest (p : BtrParms) : List Nat :=
  [187, 187] ++ u16le p.operation ++ segBytes p.pos_blk 128 ++
  u32le p.data_len ++ segBytes p.data_buf p.data_len ++
  u16le 80 ++ segBytes p.key_buf 80 ++
  u16le ((p.key_num % 256).toNat) ++
  u16le (doCallPath p).length ++ doCallPath p ++
  u16le 0

theorem segBytes_length (buf : Option (List Nat)) (n : Nat) :
    (segBytes buf n).length = n := by
  simp [segBytes]

/- ===== COM-to-TCP bridge model (src/unnamed/part_000) ===== -/

/-- Embedding of wait_for_sync from the bridge source: discards bytes until
two consecutive 187 bytes are seen and returns the remaining stream; a
stream without the marker never returns. -/
def afterSync : List Nat → Option (List Nat)
  | [] => none
  | a :: rest =>
    match rest with
    | [] => none
    | b :: rest2 =>
      if a = 187 then (if b = 187 then some rest2 else afterSync rest)
      else afterSync rest

/-- Embedding of process_request from the bridge source: waits for sync,
parses and re-encodes every request field, aborting on the sentinel values
65535 and 4294967295 that the serial read helpers also return on timeout.
The source accumulates both frames in fixed 8192-byte stack arrays
(MAX_BUFFER) with no capacity check, so a write running past an array is
stack corruption in the C; this model maps every execution in which a
buffer write would pass the 8192-byte mark to none, and the forwarding
theorem below is therefore stated only for frames within that bound. The
first component of the result is the byte string sent over TCP, the second
the response bytes relayed back over serial. The running request-buffer
length before each write is 134 for the data bytes, 136 plus data for the
key-length field, and so on, ending at 142 plus data, key and path for the
lock field; the response buffer ends at 136 plus data and key. -/
def processRequest (serial tcp : List Nat) : Option (List Nat × List Nat) :=
  match afterSync serial with
  | none => none
  | some body =>
  match readU16 body with
  | none => none
  | some (op, s1) =>
  if op = 65535 then none else
  match readExact 128 s1 with
  | none => none
  | some (pos, s2) =>
  match readU32 s2 with
  | none => none
  | some (dlen, s3) =>
  if dlen = 4294967295 then none else
  if 8192 < 134 + dlen then none else
  match readExact dlen s3 with
  | none => none
  | some (data, s4) =>
  match readU16 s4 with
  | none => none
  | some (klen, s5) =>
  if klen = 65535 then none else
  if 8192 < 136 + dlen then none else
  if 8192 < 136 + dlen + klen then none else
  match readExact klen s5 with
  | none => none
  | some (key, s6) =>
  match readU16 s6 with
  | none => none
  | some (knum, s7) =>
  if knum = 65535 then none else
  if 8192 < 138 + dlen + klen then none else
  match readU16 s7 with
  | none => none
  | some (plen, s8) =>
  if plen = 65535 then none else
  if 8192 < 140 + dlen + klen then none else
  if 8192 < 140 + dlen + klen + plen then none else
  match readExact plen s8 with
  | none => none
  | some (path, s9) =>
  match readU16 s9 with
  | none => none
  | some (lock, _) =>
  if lock = 65535 then none else
  if 8192 < 142 + dlen + klen + plen then none else
  match readU16 tcp with
  | none => none
  | some (status, t1) =>
  if status = 65535 then none else
  match readExact 128 t1 with
  | none => none
  | some (rpos, t2) =>
  match readU32 t2 with
  | none => none
  | some (rdlen, t3) =>
  if rdlen = 4294967295 then none else
  if 8192 < 134 + rdlen then none else
  match readExact rdlen t3 with
  | none => none
  | some (rdata, t4) =>
  match readU16 t4 with
  | none => none
  | some (rklen, t5) =>
  if rklen = 65535 then none else
  if 8192 < 136 + rdlen then none else
  if 8192 < 136 + rdlen + rklen then none else
  match readExact rklen t5 with
  | none => none
  | some (rkey, _) =>
  some (u16le op ++ pos ++ u32le dlen ++ data ++ u16le klen ++ key ++
          u16le knum ++ u16le plen ++ path ++ u16le lock,
        u16le status ++ rpos ++ u32le rdlen ++ rdata ++ u16le rklen ++ rkey)

/-- C5 (amended): the key-length field of every TSR request is the
constant 80, regardless of the key_len field of the parameter block, and
exactly 80 bytes of the key buffer follow it (zero bytes where the buffer
is null or shorter). -/
theorem doCallRequest_key_segment (p : BtrParms) :
    ((doCallRequest p).drop (136 + p.data_len)).take 82 =
      u16le 80 ++ segBytes p.key_buf 80 := by
  have hsplit : doCallRequest p =
      ([187, 187] ++ u16le p.operation ++ segBytes p.pos_blk 128 ++
        u32le p.data_len ++ segBytes p.data_buf p.data_len) ++
      ((u16le 80 ++ segBytes p.key_buf 80) ++
        (u16le ((p.key_num % 256).toNat) ++ u16le (doCallPath p).length ++
          doCallPath p ++ u16le 0)) := by
    simp [doCallRequest, List.append_assoc]
  rw [hsplit]
  rw [List.drop_left' (by
    simp only [List.length_append, List.length_cons, List.length_nil, u16le_length,
      u32le_length, segBytes_length]
    try omega)]
  rw [List.take_left' (by
    simp only [List.length_append, u16le_length, segBytes_length])]

/-- C4 (amended): the key-number field of every TSR request holds the low
byte of the callers key_num zero-extended to 16 bits, so an Open with mode
-1 transmits the bytes 255 0, mode -2 transmits 254 0 and mode -3
transmits 253 0, never a sign-extended 16-bit value. -/
theorem doCallRequest_key_number (p : BtrParms) :
    ((doCallRequest p).drop (218 + p.data_len)).take 2 =
      [(p.key_num % 256).toNat, 0] := by
  have hsplit : doCallRequest p =
      ([187, 187] ++ u16le p.operation ++ segBytes p.pos_blk 128 ++
        u32le p.data_len ++ segBytes p.data_buf p.data_len ++
        u16le 80 ++ segBytes p.key_buf 80) ++
      (u16le ((p.key_num % 256).toNat) ++
        (u16le (doCallPath p).length ++ doCallPath p ++ u16le 0)) := by
    simp [doCallRequest, List.append_assoc]
  rw [hsplit]
  rw [List.drop_left' (by
    simp only [List.length_append, List.length_cons, List.length_nil, u16le_length,
      u32le_length, segBytes_length]
    omega)]
  rw [List.take_left' (u16le_length _)]
  have h0 : 0 ≤ p.key_num % 256 := Int.emod_nonneg _ (by norm_num)
  have h1 : p.key_num % 256 < 256 := Int.emod_lt_of_pos _ (by norm_num)
  simp only [u16le, List.cons.injEq, and_true]
  omega

/-- C10 (amended): the bridge forwards a well-framed request verbatim
(without the sync marker, and with any bytes before it discarded) and
relays a well-framed response verbatim, provided no u16 field of either
frame is the sentinel 65535, neither data length is 4294967295 (those
values are treated as read failures and abort the exchange), and both
frames fit the fixed 8192-byte bridge buffers: 142 plus data, key and
path lengths for the request and 136 plus data and key lengths for the
response; larger frames overflow the stack arrays of the source and
nothing is guaranteed for them. -/
theorem processRequest_forwards
    (serial extra tcp tcpExtra : List Nat)
    (op : Nat) (pos data key path : List Nat) (knum lock : Nat)
    (status : Nat) (rpos rdata rkey : List Nat)
    (hsync : afterSync serial = some (u16le op ++ (pos ++ (u32le data.length ++
      (data ++ (u16le key.length ++ (key ++ (u16le knum ++ (u16le path.length ++
        (path ++ (u16le lock ++ extra)))))))))))
    (htcp : tcp = u16le status ++ (rpos ++ (u32le rdata.length ++
      (rdata ++ (u16le rkey.length ++ (rkey ++ tcpExtra))))))
    (hpos : pos.length = 128) (hrpos : rpos.length = 128)
    (hop : op < 65535) (hd : data.length < 4294967295)
    (hkl : key.length < 65535) (hkn : knum < 65535)
    (hpl : path.length < 65535) (hlk : lock < 65535)
    (hst : status < 65535) (hrd : rdata.length < 4294967295)
    (hrk : rkey.length < 65535)
    (hfit : 142 + data.length + key.length + path.length ≤ 8192)
    (hrfit : 136 + rdata.length + rkey.length ≤ 8192) :
    processRequest serial tcp =
      some (u16le op ++ pos ++ u32le data.length ++ data ++ u16le key.length ++
              key ++ u16le knum ++ u16le path.length ++ path ++ u16le lock,
            u16le status ++ rpos ++ u32le rdata.length ++ rdata ++
              u16le rkey.length ++ rkey) := by
  have h1 : readU16 (u16le op ++ (pos ++ (u32le data.length ++ (data ++
      (u16le key.length ++ (key ++ (u16le knum ++ (u16le path.length ++
        (path ++ (u16le lock ++ extra)))))))))) =
      some (op, pos ++ (u32le data.length ++ (data ++ (u16le key.length ++
        (key ++ (u16le knum ++ (u16le path.length ++ (path ++
          (u16le lock ++ extra))))))))) :=
    readU16_u16le op _ (by omega)
  have h2 : readExact 128 (pos ++ (u32le data.length ++ (data ++ (u16le key.length ++
      (key ++ (u16le knum ++ (u16le path.length ++ (path ++
        (u16le lock ++ extra))))))))) =
      some (pos, u32le data.length ++ (data ++ (u16le key.length ++ (key ++
        (u16le knum ++ (u16le path.length ++ (path ++ (u16le lock ++ extra)))))))) :=
    readExact_prefix' 128 pos _ hpos
  have h3 : readU32 (u32le data.length ++ (data ++ (u16le key.length ++ (key ++
      (u16le knum ++ (u16le path.length ++ (path ++ (u16le lock ++ extra)))))))) =
      some (data.length, data ++ (u16le key.length ++ (key ++ (u16le knum ++
        (u16le path.length ++ (path ++ (u16le lock ++ extra))))))) :=
    readU32_u32le data.length _ (by omega)
  have h4 : readExact data.length (data ++ (u16le key.length ++ (key ++
      (u16le knum ++ (u16le path.length ++ (path ++ (u16le lock ++ extra))))))) =
      some (data, u16le key.length ++ (key ++ (u16le knum ++ (u16le path.length ++
        (path ++ (u16le lock ++ extra)))))) :=
    readExact_prefix data _
  have h5 : readU16 (u16le key.length ++ (key ++ (u16le knum ++ (u16le path.length ++
      (path ++ (u16le lock ++ extra)))))) =
      some (key.length, key ++ (u16le knum ++ (u16le path.length ++ (path ++
        (u16le lock ++ extra))))) :=
    readU16_u16le key.length _ (by omega)
  have h6 : readExact key.length (key ++ (u16le knum ++ (u16le path.length ++
      (path ++ (u16le lock ++ extra))))) =
      some (key, u16le knum ++ (u16le path.length ++ (path ++ (u16le lock ++ extra)))) :=
    readExact_prefix key _
  have h7 : readU16 (u16le knum ++ (u16le path.length ++ (path ++
      (u16le lock ++ extra)))) =
      some (knum, u16le path.length ++ (path ++ (u16le lock ++ extra))) :=
    readU16_u16le knum _ (by omega)
  have h8 : readU16 (u16le path.length ++ (path ++ (u16le lock ++ extra))) =
      some (path.length, path ++ (u16le lock ++ extra)) :=
    readU16_u16le path.length _ (by omega)
  have h9 : readExact path.length (path ++ (u16le lock ++ extra)) =
      some (path, u16le lock ++ extra) :=
    readExact_prefix path _
  have h10 : readU16 (u16le lock ++ extra) = some (lock, extra) :=
    readU16_u16le lock _ (by omega)
  have t1 : readU16 (u16le status ++ (rpos ++ (u32le rdata.length ++ (rdata ++
      (u16le rkey.length ++ (rkey ++ tcpExtra)))))) =
      some (status, rpos ++ (u32le rdata.length ++ (rdata ++ (u16le rkey.length ++
        (rkey ++ tcpExtra))))) :=
    readU16_u16le status _ (by omega)
  have t2 : readExact 128 (rpos ++ (u32le rdata.length ++ (rdata ++
      (u16le rkey.length ++ (rkey ++ tcpExtra))))) =
      some (rpos, u32le rdata.length ++ (rdata ++ (u16le rkey.length ++
        (rkey ++ tcpExtra)))) :=
    readExact_prefix' 128 rpos _ hrpos
  have t3 : readU32 (u32le rdata.length ++ (rdata ++ (u16le rkey.length ++
      (rkey ++ tcpExtra)))) =
      some (rdata.length, rdata ++ (u16le rkey.length ++ (rkey ++ tcpExtra))) :=
    readU32_u32le rdata.length _ (by omega)
  have t4 : readExact rdata.length (rdata ++ (u16le rkey.length ++
      (rkey ++ tcpExtra))) =
      some (rdata, u16le rkey.length ++ (rkey ++ tcpExtra)) :=
    readExact_prefix rdata _
  have t5 : readU16 (u16le rkey.length ++ (rkey ++ tcpExtra)) =
      some (rkey.length, rkey ++ tcpExtra) :=
    readU16_u16le rkey.length _ (by omega)
  have t6 : readExact rkey.length (rkey ++ tcpExtra) = some (rkey, tcpExtra) :=
    readExact_prefix rkey tcpExtra
  have g1 : ¬ 8192 < 134 + data.length := by omega
  have g2 : ¬ 8192 < 136 + data.length := by omega
  have g3 : ¬ 8192 < 136 + data.length + key.length := by omega
  have g4 : ¬ 8192 < 138 + data.length + key.length := by omega
  have g5 : ¬ 8192 < 140 + data.length + key.length := by omega
  have g6 : ¬ 8192 < 140 + data.length + key.length + path.length := by omega
  have g7 : ¬ 8192 < 142 + data.length + key.length + path.length := by omega
  have r1 : ¬ 8192 < 134 + rdata.length := by omega
  have r2 : ¬ 8192 < 136 + rdata.length := by omega
  have r3 : ¬ 8192 < 136 + rdata.length + rkey.length := by omega
  simp only [processRequest, hsync, htcp, h1, h2, h3, h4, h5, h6, h7, h8, h9, h10,
    t1, t2, t3, t4, t5, t6,
    if_neg (Nat.ne_of_lt hop), if_neg (Nat.ne_of_lt hd), if_neg (Nat.ne_of_lt hkl),
    if_neg (Nat.ne_of_lt hkn), if_neg (Nat.ne_of_lt hpl), if_neg (Nat.ne_of_lt hlk),
    if_neg (Nat.ne_of_lt hst), if_neg (Nat.ne_of_lt hrd), if_neg (Nat.ne_of_lt hrk),
    if_neg g1, if_neg g2, if_neg g3, if_neg g4, if_neg g5, if_neg g6, if_neg g7,
    if_neg r1, if_neg r2, if_neg r3]

/- ===== Operation and status constants (src/sdks/go/xtrieve.go) ===== -/

def OpOpen : Nat := 0
def OpClose : Nat := 1
def OpInsert : Nat := 2
def OpUpdate : Nat := 3
def OpDelete : Nat := 4
def OpGetEqual : Nat := 5
def OpGetNext : Nat := 6
def OpGetPrevious : Nat := 7
def OpGetGreater : Nat := 8
def OpGetGreaterOrEqual : Nat := 9
def OpGetLess : Nat := 10
def OpGetLessOrEqual : Nat := 11
def OpGetFirst : Nat := 12
def OpGetLast : Nat := 13
def OpCreate : Nat := 14
def OpStat : Nat := 15
def OpBeginTransaction : Nat := 19
def OpEndTransaction : Nat := 20
def OpAbortTransaction : Nat := 21
def OpStepNext : Nat := 24
def OpUnlock : Nat := 27
def OpStepFirst : Nat := 33
def OpStepLast : Nat := 34
def OpStepPrevious : Nat := 35

def StatusSuccess : Nat := 0
def StatusInvalidOperation : Nat := 1
def StatusIOError : Nat := 2
def StatusFileNotOpen : Nat := 3
def StatusKeyNotFound : Nat := 4
def StatusDuplicateKey : Nat := 5
def StatusInvalidKeyNumber : Nat := 6
def StatusDifferentKeyNumber : Nat := 7
def StatusInvalidPositioning : Nat := 8
def StatusEndOfFile : Nat := 9
def StatusFileNotFound : Nat := 12
def StatusDiskFull : Nat := 18
def StatusDataBufferTooShort : Nat := 22
def StatusRecordLocked : Nat := 84
def StatusFileLocked : Nat := 85

theorem keyRecords_flatten_length (ks : List KeySpec) :
    ((ks.map keyRecordBytes).flatten).length = 16 * ks.length := by
  induction ks with
  | nil => simp
  | cons k t ih =>
    simp only [List.map_cons, List.flatten_cons, List.length_append,
      keyRecordBytes_length, ih, List.length_cons]
    ring

/- ===== Claim theorems ===== -/

/-- C1 (amended): the client request serializer emits exactly the spec
section 6 wire layout, and the packet is 142 plus the data, key and path
lengths in size; the fixed overhead is 142 bytes, not the 140 stated by
the claim. -/
theorem C1_request_serializer_layout (req : Request) :
    buildRequest req = requestWireLayout req ∧
      (buildRequest req).length =
        142 + req.dataBuffer.length + req.keyBuffer.length + req.filePath.length :=
  ⟨buildRequest_eq_layout req, buildRequest_length req⟩

/-- Request with every buffer empty, used as a concrete input. -/
def emptyRequest : Request :=
  { operation := 0, positionBlock := [], dataBuffer := [], keyBuffer := [],
    keyNumber := 0, filePath := [], lockBias := 0 }

set_option maxRecDepth 100000 in
/-- C1 counterexample: the request with every buffer empty serializes to
142 bytes, not the 140 bytes stated by the claim. -/
theorem C1_counterexample :
    (buildRequest emptyRequest).length = 142 ∧ (142 : Nat) ≠ 140 + 0 + 0 + 0 := by
  decide

/-- C2: the client response reader consumes exactly a serialized response
from the stream and returns its fields verbatim, leaving the remaining
bytes untouched. -/
theorem C2_response_reader (s : Nat) (pos d k rest : List Nat)
    (hs : s < 65536) (hpos : pos.length = 128)
    (hd : d.length < 4294967296) (hk : k.length < 65536) :
    readResponse (responseWire s pos d k ++ rest) =
      some ({ statusCode := s, positionBlock := pos, dataBuffer := d,
              keyBuffer := k }, rest) :=
  readResponse_roundtrip s pos d k rest hs hpos hd hk

/-- C2 witness at a concrete response and trailing bytes. -/
theorem C2_witness :
    readResponse (responseWire 4 (List.replicate 128 9) [1, 2, 3] [5, 6] ++ [8, 8]) =
      some ({ statusCode := 4, positionBlock := List.replicate 128 9,
              dataBuffer := [1, 2, 3], keyBuffer := [5, 6] }, [8, 8]) :=
  C2_response_reader 4 (List.replicate 128 9) [1, 2, 3] [5, 6] [8, 8]
    (by decide) (by simp) (by decide) (by decide)

/-- C3: the client file-spec builder emits exactly the spec section 6
creation layout, a buffer of 10 plus 16 bytes per key. -/
theorem C3_file_spec_layout (spec : FileSpec) :
    buildFileSpec spec = fileSpecWireLayout spec ∧
      (buildFileSpec spec).length = 10 + 16 * spec.keys.length := by
  refine ⟨buildFileSpec_eq_layout spec, ?_⟩
  rw [buildFileSpec_eq_layout]
  simp only [fileSpecWireLayout, List.length_append, u16le_length,
    List.length_replicate, keyRecords_flatten_length]
  try omega

/-- C6: for any status code in a well-formed received response, including
undocumented codes, the client Execute returns normally with that status
code; errors arise only from transport conditions and never from the
received status code. -/
theorem C6_errors_only_transport (s : Nat) (pos d k rest : List Nat) (req : Request)
    (hs : s < 65536) (hpos : pos.length = 128)
    (hd : d.length < 4294967296) (hk : k.length < 65536) :
    Execute true true req (responseWire s pos d k ++ rest) =
      Except.ok { statusCode := s, positionBlock := pos, dataBuffer := d,
                  keyBuffer := k } ∧
    (∀ (c ok : Bool) (st : List Nat),
      (∃ e, Execute c ok req st = Except.error e) ↔
        (c = false ∨ ok = false ∨ readResponse st = none)) := by
  refine ⟨?_, ?_⟩
  · simp [Execute, readResponse_roundtrip s pos d k rest hs hpos hd hk]
  · intro c ok st
    cases c with
    | false => simp [Execute]
    | true =>
      cases ok with
      | false => simp [Execute]
      | true =>
        cases h : readResponse st with
        | none => simp [Execute, h]
        | some v =>
          obtain ⟨r, rem⟩ := v
          simp [Execute, h]

/-- C6 witness: a response with the undocumented status code 9999 is
returned normally. -/
theorem C6_witness :
    Execute true true
      { operation := 5, positionBlock := [], dataBuffer := [], keyBuffer := [],
        keyNumber := 0, filePath := [], lockBias := 0 }
      (responseWire 9999 (List.replicate 128 0) [] [] ++ []) =
      Except.ok { statusCode := 9999, positionBlock := List.replicate 128 0,
                  dataBuffer := [], keyBuffer := [] } :=
  (C6_errors_only_transport 9999 (List.replicate 128 0) [] [] []
    { operation := 5, positionBlock := [], dataBuffer := [], keyBuffer := [],
      keyNumber := 0, filePath := [], lockBias := 0 }
    (by decide) (by simp) (by decide) (by decide)).1

/-- C7: bytes 2 through 129 of every serialized request equal the supplied
position block zero-padded or truncated to exactly 128 bytes. -/
theorem C7_position_block_echo (req : Request) :
    ((buildRequest req).drop 2).take 128 = pad128 req.positionBlock := by
  rw [buildRequest_eq_layout]
  have hsplit : requestWireLayout req = u16le req.operation ++
      (pad128 req.positionBlock ++ (u32le req.dataBuffer.length ++
        (req.dataBuffer ++ (u16le req.keyBuffer.length ++ (req.keyBuffer ++
          (u16le (intToU16 req.keyNumber) ++ (u16le req.filePath.length ++
            (req.filePath ++ u16le req.lockBias)))))))) := by
    simp [requestWireLayout, List.append_assoc]
  rw [hsplit, List.drop_left' (u16le_length _), List.take_left' (pad128_length _)]

/-- C8: the client operation-code constants equal the opcode table of spec
section 6. -/
theorem C8_opcode_table :
    OpOpen = 0 ∧ OpClose = 1 ∧ OpInsert = 2 ∧ OpUpdate = 3 ∧ OpDelete = 4 ∧
    OpGetEqual = 5 ∧ OpGetNext = 6 ∧ OpGetPrevious = 7 ∧ OpGetGreater = 8 ∧
    OpGetGreaterOrEqual = 9 ∧ OpGetLess = 10 ∧ OpGetLessOrEqual = 11 ∧
    OpGetFirst = 12 ∧ OpGetLast = 13 ∧ OpCreate = 14 ∧ OpStat = 15 ∧
    OpBeginTransaction = 19 ∧ OpEndTransaction = 20 ∧ OpAbortTransaction = 21 ∧
    OpStepNext = 24 ∧ OpUnlock = 27 ∧ OpStepFirst = 33 ∧ OpStepLast = 34 ∧
    OpStepPrevious = 35 := by
  decide

/-- C9: the client status-code constants equal the assignments of spec
section 6. -/
theorem C9_status_code_table :
    StatusSuccess = 0 ∧ StatusInvalidOperation = 1 ∧ StatusIOError = 2 ∧
    StatusFileNotOpen = 3 ∧ StatusKeyNotFound = 4 ∧ StatusDuplicateKey = 5 ∧
    StatusInvalidKeyNumber = 6 ∧ StatusDifferentKeyNumber = 7 ∧
    StatusInvalidPositioning = 8 ∧ StatusEndOfFile = 9 ∧ StatusFileNotFound = 12 ∧
    StatusDiskFull = 18 ∧ StatusDataBufferTooShort = 22 ∧
    StatusRecordLocked = 84 ∧ StatusFileLocked = 85 := by
  decide

/-- Parameter block of a normal-mode Open call: key_num is -1 and the key
buffer holds the null-terminated file path. -/
def openParmsModeMinusOne : BtrParms :=
  { data_buf := none, data_len := 0, pos_blk := none, operation := 0,
    key_buf := some [84, 69, 83, 84, 0], key_len := 80, key_num := -1 }

set_option maxRecDepth 100000 in
/-- C4 counterexample: the Open call with mode -1 serializes key-number
bytes 255 0, not the bytes 255 255 stated by the claim. -/
theorem C4_counterexample :
    ((doCallRequest openParmsModeMinusOne).drop 218).take 2 = [255, 0] ∧
      ([255, 0] : List Nat) ≠ [255, 255] := by
  decide

/-- Parameter block whose key_len field is 10. -/
def parmsKeyLenTen : BtrParms :=
  { data_buf := none, data_len := 0, pos_blk := none, operation := 5,
    key_buf := some [1, 2, 3], key_len := 10, key_num := 0 }

set_option maxRecDepth 100000 in
/-- C5 counterexample: a call whose parameter block reports key_len 10
serializes the key-length field 80, not 10. -/
theorem C5_counterexample :
    parmsKeyLenTen.key_len = 10 ∧
      ((doCallRequest parmsKeyLenTen).drop 136).take 2 = [80, 0] ∧
      ([80, 0] : List Nat) ≠ [10, 0] := by
  decide

/-- Serial frame of an Open request whose key-number field holds the bytes
255 255 (mode -1), well within the 8192-byte buffers. -/
def openFrameKeyNumFFFF : List Nat :=
  u16le 0 ++ List.replicate 128 0 ++ u32le 0 ++ u16le 0 ++ [255, 255] ++
    u16le 4 ++ [84, 69, 83, 84] ++ u16le 0

/-- The same Open frame with key-number bytes 0 0. -/
def openFrameKeyNumZero : List Nat :=
  u16le 0 ++ List.replicate 128 0 ++ u32le 0 ++ u16le 0 ++ [0, 0] ++
    u16le 4 ++ [84, 69, 83, 84] ++ u16le 0

/-- A well-formed empty success response frame. -/
def emptySuccessResponse : List Nat :=
  u16le 0 ++ List.replicate 128 0 ++ u32le 0 ++ u16le 0

set_option maxRecDepth 100000 in
/-- C10 counterexample: with a well-formed response available on the TCP
side, an Open request whose key-number field holds -1 (bytes 255 255, the
normal open mode of spec section 6) is dropped by the bridge, while the
byte-identical frame with key-number 0 is forwarded and the response
relayed; the original claim requires the first request to be forwarded as
well. -/
theorem C10_counterexample :
    processRequest ([187, 187] ++ openFrameKeyNumFFFF) emptySuccessResponse = none ∧
    processRequest ([187, 187] ++ openFrameKeyNumZero) emptySuccessResponse =
      some (openFrameKeyNumZero, emptySuccessResponse) := by
  decide

set_option maxRecDepth 100000 in
/-- C10 witness: a GetEqual request preceded by a garbage byte and the sync
marker is forwarded verbatim and the response is relayed verbatim. -/
theorem C10_witness :
    processRequest
      ([7, 187, 187] ++ (u16le 5 ++ (List.replicate 128 0 ++ (u32le 2 ++
        ([10, 20] ++ (u16le 1 ++ ([9] ++ (u16le 0 ++ (u16le 0 ++
          (([] : List Nat) ++ (u16le 100 ++ [])))))))))))
      (u16le 0 ++ (List.replicate 128 3 ++ (u32le 1 ++ ([77] ++
        (u16le 1 ++ ([9] ++ ([] : List Nat)))))))
    = some (u16le 5 ++ List.replicate 128 0 ++ u32le 2 ++ [10, 20] ++ u16le 1 ++
              [9] ++ u16le 0 ++ u16le 0 ++ ([] : List Nat) ++ u16le 100,
            u16le 0 ++ List.replicate 128 3 ++ u32le 1 ++ [77] ++ u16le 1 ++ [9]) :=
  processRequest_forwards
    ([7, 187, 187] ++ (u16le 5 ++ (List.replicate 128 0 ++ (u32le 2 ++
        ([10, 20] ++ (u16le 1 ++ ([9] ++ (u16le 0 ++ (u16le 0 ++
          (([] : List Nat) ++ (u16le 100 ++ [])))))))))))
    [] _ ([] : List Nat)
    5 (List.replicate 128 0) [10, 20] [9] [] 0 100
    0 (List.replicate 128 3) [77] [9]
    (by decide) (by simp) (by simp) (by simp)
    (by decide) (by decide) (by decide) (by decide) (by decide) (by decide)
    (by decide) (by decide) (by decide) (by decide) (by decide)
